import Mathlib

/-!
Verification of the battle.net login REST service
(`src/server/bnetserver/REST/LoginRESTService.cpp`).

The data-store side effects are modelled as explicit operation lists; each
committed transaction is one list, applied atomically by a fold. Machine
integers (`uint32`) are modelled as `Nat` (no arithmetic in the service
overflows: counters and timestamps only grow by small configured amounts).
Utilities whose implementation lives outside the provided sources
(hex encoding, SHA-256, UTF-8 uppercase folding, base64) are modelled from
the specification, as noted on each definition.
-/

namespace LoginREST

/-- Modelled from the spec: the hex-encoding utility (`ByteArrayToHexStr`),
whose implementation is not in the provided sources. The spec describes it
as `hexEncode` over a byte array, with the outer credential digest rendered
"using uppercase hex characters"; the flag selects uppercase digits. -/
def hexDigit (upperCase : Bool) (n : Nat) : Char :=
  if n < 10 then Char.ofNat (48 + n)
  else Char.ofNat ((if upperCase then 55 else 87) + n)

/-- Modelled from the spec: hex-encodes a byte array, two digits per byte,
high nibble first, preserving byte order. -/
def byteArrayToHexStr (bytes : List Nat) (upperCase : Bool) : String :=
  String.mk (bytes.foldr
    (fun b acc => hexDigit upperCase (b / 16 % 16) :: hexDigit upperCase (b % 16) :: acc) [])

/-- Modelled from the spec: single-character ASCII/Latin-range uppercase
folding used by `Utf8ToUpperOnlyLatin` (implementation not in the provided
sources): lowercase ASCII `a`-`z` and Latin-1 `à`-`þ` (except `÷`) map to
their uppercase forms, everything else is unchanged. -/
def upperLatinChar (c : Char) : Char :=
  if 97 ≤ c.toNat ∧ c.toNat ≤ 122 then Char.ofNat (c.toNat - 32)
  else if 224 ≤ c.toNat ∧ c.toNat ≤ 254 ∧ c.toNat ≠ 247 then Char.ofNat (c.toNat - 32)
  else c

/-- Modelled from the spec: `Utf8ToUpperOnlyLatin`, in-place ASCII/Latin-range
uppercase folding of a string. -/
def utf8ToUpperOnlyLatin (s : String) : String :=
  String.mk (s.toList.map upperLatinChar)

/-- A streaming SHA-256 hasher state (`Trinity::Crypto::SHA256`): `UpdateData`
appends to the message; `Finalize`/`GetDigest` applies the compression
function to the accumulated message. The compression function itself is not
in the provided sources; it is passed as an explicit parameter `H`
(an arbitrary function from messages to 32-byte digests). -/
structure SHA256State where
  buf : String

def SHA256State.init : SHA256State := ⟨""⟩

def SHA256State.updateData (s : SHA256State) (data : String) : SHA256State :=
  ⟨s.buf ++ data⟩

def SHA256State.getDigest (H : String → List Nat) (s : SHA256State) : List Nat :=
  H s.buf

/-- `LoginRESTService::CalculateShaPassHash` (lines 400-413): hash the name,
hex-encode that digest, hash `hexDigest ++ ":" ++ password`, and return the
outer digest hex-encoded with uppercase digits. `H` stands for the SHA-256
compression function. -/
def calculateShaPassHash (H : String → List Nat) (name password : String) : String :=
  let email := (SHA256State.init.updateData name).getDigest H
  let sha := (((SHA256State.init.updateData
      (byteArrayToHexStr email false)).updateData ":").updateData password).getDigest H
  byteArrayToHexStr sha true

/-- The credential hash as computed by the login flow (`HandlePostLogin`
lines 252-258): both login and password are uppercase-folded before
`CalculateShaPassHash` is invoked. -/
def loginFlowHash (H : String → List Nat) (login password : String) : String :=
  calculateShaPassHash H (utf8ToUpperOnlyLatin login) (utf8ToUpperOnlyLatin password)

/-- `WrongPass.BanType` configuration: ban the originating address or the
account. -/
inductive BanMode where
  | banIp
  | banAccount
deriving DecidableEq

/-- The configuration values `HandlePostLogin` reads. -/
structure Config where
  maxWrongPassword : Nat
  banMode : BanMode
  banTime : Nat
  ticketDuration : Nat
deriving DecidableEq

/-- One row of the `LOGIN_SEL_BNET_AUTHENTICATION` result
(`HandlePostLogin` lines 273-279, fields 0-5). -/
structure AccountRow where
  accountId : Nat
  pass_hash : String
  failedLogins : Nat
  loginTicket : String
  loginTicketExpiry : Nat
  isBanned : Bool
deriving DecidableEq

/-- The prepared statements `HandlePostLogin` appends to transactions or
executes, with their bound parameters. -/
inductive DbOp where
  | updFailedLogins (accountId : Nat)
  | insBnetAccountAutoBanned (accountId : Nat) (banTime : Nat)
  | insIpAutoBanned (ipAddress : String) (banTime : Nat)
  | updResetFailedLogins (accountId : Nat)
  | updAuthentication (loginTicket : String) (expiry : Nat) (accountId : Nat)
deriving DecidableEq

/-- `JSON::Login::LoginResult` authentication states used by the handler. -/
inductive AuthState where
  | login
  | done
deriving DecidableEq

/-- `JSON::Login::LoginResult`: protobuf optional fields start unset
(`none`) and are only present if a setter ran. -/
structure LoginResult where
  authentication_state : Option AuthState
  error_code : Option String
  error_message : Option String
  login_ticket : Option String
deriving DecidableEq

/-- The transaction built for a wrong password on an unbanned account when
`WrongPass.MaxCount` is nonzero (`HandlePostLogin` lines 293-326): append
the failed-logins increment, bump the local counter, and if it reaches the
maximum append one ban insertion (scoped per `WrongPass.BanType`) and the
counter reset. The whole list is committed as one transaction. -/
def onFailedLogin (cfg : Config) (accountId : Nat) (ipAddress : String)
    (failedLogins : Nat) : List DbOp :=
  let trans := [DbOp.updFailedLogins accountId]
  let failedLogins := failedLogins + 1
  if cfg.maxWrongPassword ≤ failedLogins then
    trans
      ++ [match cfg.banMode with
          | .banAccount => DbOp.insBnetAccountAutoBanned accountId cfg.banTime
          | .banIp => DbOp.insIpAutoBanned ipAddress cfg.banTime]
      ++ [DbOp.updResetFailedLogins accountId]
  else
    trans

/-- The ticket issued on a successful credential check (`HandlePostLogin`
lines 339-340): keep the stored ticket unless it is empty or its expiry is
strictly before the current time, in which case generate
`"TC-" ++ hex(20 random bytes)`. `randomBytes` stands for the output of
`Trinity::Crypto::GetRandomBytes<20>()`. -/
def issueOrReuse (existingTicket : String) (existingExpiry now : Nat)
    (randomBytes : List Nat) : String :=
  if existingTicket = "" ∨ existingExpiry < now then
    "TC-" ++ byteArrayToHexStr randomBytes false
  else
    existingTicket

/-- What the authentication callback produces: the response body and the
list of committed transactions (each inner list is one atomic unit). -/
structure PostLoginOutcome where
  response : LoginResult
  transactions : List (List DbOp)
deriving DecidableEq

/-- The chained callback of `HandlePostLogin` (lines 261-356) as a function
of the authentication query result. Debug logging is omitted (no data-store
effect). The successful-login update is a single statement, modelled as a
singleton transaction. -/
def handlePostLoginCallback (cfg : Config) (now : Nat) (ipAddress : String)
    (randomBytes : List Nat) (sentPasswordHash : String)
    (result : Option AccountRow) : PostLoginOutcome :=
  match result with
  | none =>
    { response := { authentication_state := some .done, error_code := none,
                    error_message := none, login_ticket := none }
      transactions := [] }
  | some fields =>
    if sentPasswordHash ≠ fields.pass_hash then
      { response := { authentication_state := some .done, error_code := none,
                      error_message := none, login_ticket := none }
        transactions :=
          if ¬fields.isBanned ∧ cfg.maxWrongPassword ≠ 0 then
            [onFailedLogin cfg fields.accountId ipAddress fields.failedLogins]
          else
            [] }
    else
      let loginTicket :=
        issueOrReuse fields.loginTicket fields.loginTicketExpiry now randomBytes
      { response := { authentication_state := some .done, error_code := none,
                      error_message := none, login_ticket := some loginTicket }
        transactions :=
          [[DbOp.updAuthentication loginTicket (now + cfg.ticketDuration)
              fields.accountId]] }

/-- A persisted ban record (row of the account-ban or ip-ban table). -/
inductive BanRecord where
  | account (accountId : Nat) (banTime : Nat)
  | ip (address : String) (banTime : Nat)
deriving DecidableEq

/-- The slice of the data store the login statements touch for one account:
its failed-login counter, ticket columns, and the ban tables. -/
structure DbState where
  failedLogins : Nat
  bans : List BanRecord
  loginTicket : String
  loginTicketExpiry : Nat
deriving DecidableEq

/-- Effect of one prepared statement on the data store.
`LOGIN_UPD_BNET_FAILED_LOGINS` increments the counter,
`LOGIN_UPD_BNET_RESET_FAILED_LOGINS` zeroes it, the `INS_*_AUTO_BANNED`
statements insert one ban row, and `LOGIN_UPD_BNET_AUTHENTICATION` stores
the ticket and expiry. -/
def applyOp (s : DbState) : DbOp → DbState
  | .updFailedLogins _ => { s with failedLogins := s.failedLogins + 1 }
  | .insBnetAccountAutoBanned a t => { s with bans := s.bans ++ [BanRecord.account a t] }
  | .insIpAutoBanned ip t => { s with bans := s.bans ++ [BanRecord.ip ip t] }
  | .updResetFailedLogins _ => { s with failedLogins := 0 }
  | .updAuthentication ticket expiry _ =>
    { s with loginTicket := ticket, loginTicketExpiry := expiry }

/-- Committing a transaction applies all of its statements, in order, as one
unit (`LoginDatabase.CommitTransaction`). -/
def commitTransaction (s : DbState) (trans : List DbOp) : DbState :=
  trans.foldl applyOp s

/-- Apply a sequence of committed transactions. -/
def commitAll (s : DbState) (transactions : List (List DbOp)) : DbState :=
  transactions.foldl commitTransaction s

/-- Number of ban-insertion statements in a transaction. -/
def banInsertCount (trans : List DbOp) : Nat :=
  trans.countP (fun op =>
    match op with
    | .insBnetAccountAutoBanned _ _ => true
    | .insIpAutoBanned _ _ => true
    | _ => false)

/-- `JSON::Login::LoginRefreshResult`: optional expiry and expired flag. -/
structure LoginRefreshResult where
  login_ticket_expiry : Option Nat
  is_expired : Option Bool
deriving DecidableEq

/-- The ticket table as seen by the refresh statements: rows of
(login ticket, ticket expiry). -/
abbrev TicketDb := List (String × Nat)

/-- `LOGIN_SEL_BNET_EXISTING_AUTHENTICATION`: the expiry stored for a
ticket, if any row matches. -/
def selExistingAuthentication (db : TicketDb) (ticket : String) : Option Nat :=
  db.lookup ticket

/-- `LOGIN_UPD_BNET_EXISTING_AUTHENTICATION`: set the expiry of every row
whose ticket matches; ticket strings are never written. -/
def updExistingAuthentication (db : TicketDb) (newExpiry : Nat)
    (ticket : String) : TicketDb :=
  db.map (fun row => if row.1 = ticket then (row.1, newExpiry) else row)

/-- The callback of `HandlePostRefreshLoginTicket` (lines 369-395) as a
function of the ticket table: returns the response and the table after any
executed update. -/
def handlePostRefreshLoginTicket (duration : Nat) (db : TicketDb)
    (ticket : String) (now : Nat) : LoginRefreshResult × TicketDb :=
  match selExistingAuthentication db ticket with
  | some loginTicketExpiry =>
    if now < loginTicketExpiry then
      ({ login_ticket_expiry := some (now + duration), is_expired := none },
       updExistingAuthentication db (now + duration) ticket)
    else
      ({ login_ticket_expiry := none, is_expired := some true }, db)
  | none => ({ login_ticket_expiry := none, is_expired := some true }, db)

/-- One row of the `LOGIN_SEL_BNET_GAME_ACCOUNT_LIST` result
(`HandleGetGameAccounts` fields 0-4); `banDate` is the NULL-able ban-start
column. -/
structure GameAccountRow where
  name : String
  expansion : Nat
  banDate : Option Nat
  unbanDate : Nat
  suspensionReason : String
deriving DecidableEq

/-- `JSON::Login::GameAccountInfo`: protobuf optional fields start unset. -/
structure GameAccountInfo where
  display_name : Option String
  expansion : Option Nat
  is_suspended : Option Bool
  is_banned : Option Bool
  suspension_reason : Option String
  suspension_expires : Option Nat
deriving DecidableEq

/-- The suffix after the first `#`, if the string contains one
(`strchr(name, '#')` followed by `++hashPos`). -/
def afterFirstHash : List Char → Option (List Char)
  | [] => none
  | c :: cs => if c = '#' then some cs else afterFirstHash cs

/-- `formatDisplayName` in `HandleGetGameAccounts` (lines 181-187): if the
stored name contains `#`, render `"WoW"` followed by the part after the
first `#`; otherwise the name verbatim. -/
def formatDisplayName (name : String) : String :=
  match afterFirstHash name.toList with
  | some rest => "WoW" ++ String.mk rest
  | none => name

/-- The per-row projection of `HandleGetGameAccounts` (lines 192-204):
display name and expansion are always set; the suspension fields are set
only when the ban-start column is non-NULL. -/
def gameAccountInfoOfRow (now : Nat) (row : GameAccountRow) : GameAccountInfo :=
  let base : GameAccountInfo :=
    { display_name := some (formatDisplayName row.name)
      expansion := some row.expansion
      is_suspended := none, is_banned := none
      suspension_reason := none, suspension_expires := none }
  match row.banDate with
  | none => base
  | some banDate =>
    { base with
      is_suspended := some (decide (now < row.unbanDate))
      is_banned := some (decide (banDate = row.unbanDate))
      suspension_reason := some row.suspensionReason
      suspension_expires := some row.unbanDate }

/-- Modelled from the spec: value of one base64 alphabet character
(`Trinity::Encoding::Base64` is not in the provided sources). -/
def base64DecodeChar (c : Char) : Option Nat :=
  if 65 ≤ c.toNat ∧ c.toNat ≤ 90 then some (c.toNat - 65)
  else if 97 ≤ c.toNat ∧ c.toNat ≤ 122 then some (c.toNat - 71)
  else if 48 ≤ c.toNat ∧ c.toNat ≤ 57 then some (c.toNat + 4)
  else if c = '+' then some 62
  else if c = '/' then some 63
  else none

/-- Modelled from the spec: standard base64 decoding of a character list,
four characters to three bytes, with `=` padding; any malformed input
yields `none`. -/
def base64DecodeChars : List Char → Option (List Nat)
  | [] => some []
  | a :: b :: c :: d :: rest =>
    match base64DecodeChar a, base64DecodeChar b with
    | some va, some vb =>
      if c = '=' then
        if d = '=' ∧ rest = [] then some [va * 4 + vb / 16] else none
      else
        match base64DecodeChar c with
        | some vc =>
          if d = '=' then
            if rest = [] then some [va * 4 + vb / 16, vb % 16 * 16 + vc / 4]
            else none
          else
            match base64DecodeChar d with
            | some vd =>
              (base64DecodeChars rest).map
                (fun tail =>
                  (va * 4 + vb / 16) :: (vb % 16 * 16 + vc / 4) :: (vc % 4 * 64 + vd) :: tail)
            | none => none
        | none => none
    | _, _ => none
  | _ => none

/-- Modelled from the spec: `Trinity::Encoding::Base64::Decode`, returning
`none` on non-base64 input. -/
def base64Decode (s : String) : Option (List Nat) :=
  base64DecodeChars s.toList

/-- View a decoded byte list as the string the handler works on
(`std::string_view` over the decoded buffer). -/
def bytesToString (bytes : List Nat) : String :=
  String.mk (bytes.map Char.ofNat)

/-- `LoginRESTService::ExtractAuthorization` (lines 132-158): `none` models
an absent Authorization header; strip an optional case-sensitive
`"Basic "` prefix, base64-decode, and keep everything before the first
`':'` (byte 58); decode failure yields the empty ticket. -/
def extractAuthorization (header : Option String) : String :=
  match header with
  | none => ""
  | some authorization =>
    let authorization :=
      if "Basic ".toList.isPrefixOf authorization.toList then
        String.mk (authorization.toList.drop "Basic ".length)
      else authorization
    match base64Decode authorization with
    | none => ""
    | some decoded =>
      match decoded.findIdx? (· == 58) with
      | some ticketEnd => bytesToString (decoded.take ticketEnd)
      | none => bytesToString decoded

/-- `true` iff `c` is an ASCII hexadecimal digit. -/
def isHexDigitChar (c : Char) : Bool :=
  decide ((48 ≤ c.toNat ∧ c.toNat ≤ 57) ∨ (97 ≤ c.toNat ∧ c.toNat ≤ 102) ∨
    (65 ≤ c.toNat ∧ c.toNat ≤ 70))

/-! ## Helper lemmas -/

theorem char_toNat_ofNat_of_lt (n : Nat) (h : n < 55296) :
    (Char.ofNat n).toNat = n := by
  simp only [Char.ofNat, Nat.isValidChar, Char.ofNatAux, Char.toNat]
  rw [dif_pos (Or.inl h)]
  simp [UInt32.toNat]

theorem string_toList_mk (l : List Char) : (String.mk l).toList = l := rfl

theorem string_length_mk (l : List Char) : (String.mk l).length = l.length := rfl

theorem upperLatinChar_idem (c : Char) :
    upperLatinChar (upperLatinChar c) = upperLatinChar c := by
  unfold upperLatinChar
  by_cases h1 : 97 ≤ c.toNat ∧ c.toNat ≤ 122
  · rw [if_pos h1]
    have ht : (Char.ofNat (c.toNat - 32)).toNat = c.toNat - 32 :=
      char_toNat_ofNat_of_lt _ (by omega)
    rw [if_neg (by omega), if_neg (by simp [ht]; omega)]
  · rw [if_neg h1]
    by_cases h2 : 224 ≤ c.toNat ∧ c.toNat ≤ 254 ∧ c.toNat ≠ 247
    · rw [if_pos h2]
      have ht : (Char.ofNat (c.toNat - 32)).toNat = c.toNat - 32 :=
        char_toNat_ofNat_of_lt _ (by omega)
      rw [if_neg (by omega), if_neg (by simp [ht]; omega)]
    · rw [if_neg h2, if_neg h1, if_neg h2]

theorem utf8ToUpperOnlyLatin_idem (s : String) :
    utf8ToUpperOnlyLatin (utf8ToUpperOnlyLatin s) = utf8ToUpperOnlyLatin s := by
  unfold utf8ToUpperOnlyLatin
  rw [string_toList_mk, List.map_map]
  exact congrArg String.mk (List.map_congr_left fun c _ => upperLatinChar_idem c)

theorem upperLatinChar_hexDigit (m : Nat) (h : m < 16) :
    upperLatinChar (hexDigit false m) = hexDigit true m := by
  interval_cases m <;> decide

theorem hexDigit_isHexDigit (u : Bool) (m : Nat) (h : m < 16) :
    isHexDigitChar (hexDigit u m) = true := by
  cases u <;> interval_cases m <;> decide

theorem byteArrayToHexStr_upper (bytes : List Nat) :
    utf8ToUpperOnlyLatin (byteArrayToHexStr bytes false) = byteArrayToHexStr bytes true := by
  unfold utf8ToUpperOnlyLatin byteArrayToHexStr
  rw [string_toList_mk]
  refine congrArg String.mk ?_
  induction bytes with
  | nil => rfl
  | cons b bs ih =>
    simp only [List.foldr_cons, List.map_cons, ih,
      upperLatinChar_hexDigit _ (Nat.mod_lt _ (by norm_num)),
      upperLatinChar_hexDigit _ (Nat.mod_lt _ (by norm_num) : b % 16 < 16)]

theorem byteArrayToHexStr_length (bytes : List Nat) (u : Bool) :
    (byteArrayToHexStr bytes u).length = 2 * bytes.length := by
  unfold byteArrayToHexStr
  rw [string_length_mk]
  induction bytes with
  | nil => rfl
  | cons b bs ih => simp only [List.foldr_cons, List.length_cons, ih]; omega

theorem byteArrayToHexStr_hexChars (bytes : List Nat) (u : Bool) :
    ∀ c ∈ (byteArrayToHexStr bytes u).toList, isHexDigitChar c = true := by
  unfold byteArrayToHexStr
  rw [string_toList_mk]
  induction bytes with
  | nil => simp
  | cons b bs ih =>
    simp only [List.foldr_cons, List.mem_cons]
    rintro c (rfl | rfl | hc)
    · exact hexDigit_isHexDigit u _ (Nat.mod_lt _ (by norm_num))
    · exact hexDigit_isHexDigit u _ (Nat.mod_lt _ (by norm_num))
    · exact ih c hc

/-! ## Claims -/

/-- C6: `Hash(login, password)` is the uppercase hex encoding of
`SHA256(hexEncode(SHA256(uppercase login)) ++ ":" ++ uppercase password)`,
where the outer digest is hex-encoded in the same byte order as the inner
digest, only with uppercase hex characters (uppercase-folding the
lowercase encoding gives exactly the uppercase encoding). -/
theorem calculateShaPassHash_spec (H : String → List Nat) (login password : String) :
    loginFlowHash H login password =
      byteArrayToHexStr
        (H (byteArrayToHexStr (H (utf8ToUpperOnlyLatin login)) false ++ ":" ++
            utf8ToUpperOnlyLatin password)) true ∧
    ∀ bytes : List Nat,
      byteArrayToHexStr bytes true =
        utf8ToUpperOnlyLatin (byteArrayToHexStr bytes false) := by
  exact ⟨rfl, fun bytes => (byteArrayToHexStr_upper bytes).symm⟩

/-- C7: the login flow's credential hash is deterministic (it is a pure
function of its inputs) and case-normalization-insensitive: hashing
`(login, password)` equals hashing their ASCII/Latin-range uppercase
foldings. -/
theorem loginFlowHash_caseInsensitive (H : String → List Nat) (login password : String) :
    loginFlowHash H login password =
      loginFlowHash H (utf8ToUpperOnlyLatin login) (utf8ToUpperOnlyLatin password) := by
  unfold loginFlowHash
  rw [utf8ToUpperOnlyLatin_idem, utf8ToUpperOnlyLatin_idem]

/-- C10: a game-account row whose ban-start column is NULL projects to an
entry with only the display name and expansion set; none of the suspension
fields is set, for every current time and ban-end value. -/
theorem gameAccount_nullBanStart_noSuspensionFields (now : Nat) (row : GameAccountRow)
    (h : row.banDate = none) :
    gameAccountInfoOfRow now row =
      { display_name := some (formatDisplayName row.name)
        expansion := some row.expansion
        is_suspended := none, is_banned := none
        suspension_reason := none, suspension_expires := none } := by
  unfold gameAccountInfoOfRow
  rw [h]

/-- Witness for C10 at a concrete row (note the ban-end value 999 and the
current time 500 are ignored). -/
theorem gameAccount_nullBanStart_noSuspensionFields_witness :
    (⟨"Bob#1", 2, none, 999, "r"⟩ : GameAccountRow).banDate = none ∧
    gameAccountInfoOfRow 500 ⟨"Bob#1", 2, none, 999, "r"⟩ =
      { display_name := some "WoW1", expansion := some 2
        is_suspended := none, is_banned := none
        suspension_reason := none, suspension_expires := none } := by
  refine ⟨rfl, ?_⟩
  rw [gameAccount_nullBanStart_noSuspensionFields 500 ⟨"Bob#1", 2, none, 999, "r"⟩ rfl]
  rfl

/-- C5: the login handler's response for an unknown login name equals the
response for a known account with a mismatching password byte for byte:
both carry authentication state `done` and leave the error code, error
message and ticket fields unset, so the serialized bodies coincide. -/
theorem postLogin_enumerationSafe (cfg : Config) (now : Nat) (ipAddress : String)
    (randomBytes : List Nat) (sentPasswordHash : String) (row : AccountRow)
    (h : sentPasswordHash ≠ row.pass_hash) :
    (handlePostLoginCallback cfg now ipAddress randomBytes sentPasswordHash
        (some row)).response =
      (handlePostLoginCallback cfg now ipAddress randomBytes sentPasswordHash
        none).response ∧
    (handlePostLoginCallback cfg now ipAddress randomBytes sentPasswordHash
        none).response =
      { authentication_state := some .done, error_code := none
        error_message := none, login_ticket := none } := by
  refine ⟨?_, rfl⟩
  simp only [handlePostLoginCallback]
  rw [if_pos h]

/-- Witness for C5: an unknown account and a wrong password on account 1
produce the same `done`-and-nothing-else response. -/
theorem postLogin_enumerationSafe_witness :
    ("WRONG" : String) ≠ "CAFE" ∧
    (handlePostLoginCallback ⟨2, .banIp, 600, 3600⟩ 1000 "10.0.0.1" [] "WRONG"
        (some ⟨1, "CAFE", 0, "", 0, false⟩)).response =
      (handlePostLoginCallback ⟨2, .banIp, 600, 3600⟩ 1000 "10.0.0.1" [] "WRONG"
        none).response := by
  refine ⟨by decide, ?_⟩
  exact (postLogin_enumerationSafe ⟨2, .banIp, 600, 3600⟩ 1000 "10.0.0.1" [] "WRONG"
    ⟨1, "CAFE", 0, "", 0, false⟩ (by decide)).1

/-- C2 counterexample: with `WrongPass.MaxCount = 0`, a failed login on an
unbanned account with stored counter 5 commits no transaction at all, so
the counter stays 5 instead of being incremented to 6 as the claim
requires (the `if (maxWrongPassword)` guard skips the whole block,
increment included). -/
theorem postLogin_maxZero_counterexample :
    (handlePostLoginCallback ⟨0, .banIp, 600, 3600⟩ 1000 "10.0.0.1" [] "WRONG"
        (some ⟨7, "CAFE", 5, "", 0, false⟩)).transactions = [] ∧
    (commitAll ⟨5, [], "", 0⟩
        (handlePostLoginCallback ⟨0, .banIp, 600, 3600⟩ 1000 "10.0.0.1" [] "WRONG"
          (some ⟨7, "CAFE", 5, "", 0, false⟩)).transactions).failedLogins = 5 ∧
    ¬(commitAll ⟨5, [], "", 0⟩
        (handlePostLoginCallback ⟨0, .banIp, 600, 3600⟩ 1000 "10.0.0.1" [] "WRONG"
          (some ⟨7, "CAFE", 5, "", 0, false⟩)).transactions).failedLogins = 5 + 1 := by
  refine ⟨rfl, rfl, by decide⟩

/-- C2 (amended): when the configured maximum wrong-password count is zero,
a failed login on an unbanned account performs no data-store write at all:
no transaction is committed, so the failed-login counter is unchanged and
no ban record is inserted. -/
theorem postLogin_maxZero_noWrites (cfg : Config) (now : Nat) (ipAddress : String)
    (randomBytes : List Nat) (sentPasswordHash : String) (row : AccountRow)
    (s : DbState)
    (hmax : cfg.maxWrongPassword = 0)
    (hbanned : row.isBanned = false)
    (hmismatch : sentPasswordHash ≠ row.pass_hash) :
    (handlePostLoginCallback cfg now ipAddress randomBytes sentPasswordHash
        (some row)).transactions = [] ∧
    commitAll s (handlePostLoginCallback cfg now ipAddress randomBytes sentPasswordHash
        (some row)).transactions = s := by
  have h1 : (handlePostLoginCallback cfg now ipAddress randomBytes sentPasswordHash
      (some row)).transactions = [] := by
    simp only [handlePostLoginCallback]
    rw [if_pos hmismatch]
    simp [hmax]
  exact ⟨h1, by rw [h1]; rfl⟩

/-- Witness for C2 (amended) at a concrete state: counter 5 and empty ban
tables are untouched. -/
theorem postLogin_maxZero_noWrites_witness :
    (⟨0, .banIp, 600, 3600⟩ : Config).maxWrongPassword = 0 ∧
    (⟨7, "CAFE", 5, "", 0, false⟩ : AccountRow).isBanned = false ∧
    ("WRONG" : String) ≠ "CAFE" ∧
    commitAll ⟨5, [], "", 0⟩
      (handlePostLoginCallback ⟨0, .banIp, 600, 3600⟩ 1000 "10.0.0.1" [] "WRONG"
        (some ⟨7, "CAFE", 5, "", 0, false⟩)).transactions = ⟨5, [], "", 0⟩ :=
  ⟨rfl, rfl, by decide,
    (postLogin_maxZero_noWrites ⟨0, .banIp, 600, 3600⟩ 1000 "10.0.0.1" [] "WRONG"
      ⟨7, "CAFE", 5, "", 0, false⟩ ⟨5, [], "", 0⟩ rfl rfl (by decide)).2⟩

theorem lookup_updExistingAuthentication (db : TicketDb) (v : Nat) (t : String)
    (e : Nat) (h : selExistingAuthentication db t = some e) :
    selExistingAuthentication (updExistingAuthentication db v t) t = some v := by
  induction db with
  | nil => simp [selExistingAuthentication] at h
  | cons row rest ih =>
    obtain ⟨k, b⟩ := row
    by_cases hk : k = t
    · subst hk
      simp only [selExistingAuthentication, updExistingAuthentication, List.map_cons]
      simp [List.lookup]
    · have hk' : (t == k) = false := by
        simp only [beq_eq_false_iff_ne, ne_eq]
        exact fun he => hk he.symm
      simp only [selExistingAuthentication, updExistingAuthentication, List.map_cons]
      rw [if_neg hk]
      simp only [selExistingAuthentication, List.lookup, hk'] at h
      simp only [List.lookup, hk']
      exact ih h

theorem keys_updExistingAuthentication (db : TicketDb) (v : Nat) (t : String) :
    (updExistingAuthentication db v t).map Prod.fst = db.map Prod.fst := by
  induction db with
  | nil => rfl
  | cons row rest ih =>
    by_cases hk : row.1 = t <;>
      simp only [updExistingAuthentication, List.map_cons, if_pos, if_neg, hk,
        if_true, if_false, ite_true, ite_false] <;>
      simp only [updExistingAuthentication] at ih <;>
      simp [ih]

/-- C4: refreshing a ticket whose stored expiry is strictly in the future
responds with `now + duration`, persists exactly that expiry under the same
ticket, and never changes any ticket string; on an expiry at or before the
current time, or on an absent ticket, it responds with the expired flag set
and leaves the table untouched. -/
theorem refreshLoginTicket_spec (duration : Nat) (db : TicketDb) (ticket : String)
    (now expiry : Nat) :
    (selExistingAuthentication db ticket = some expiry → now < expiry →
      (handlePostRefreshLoginTicket duration db ticket now).1 =
        { login_ticket_expiry := some (now + duration), is_expired := none } ∧
      selExistingAuthentication (handlePostRefreshLoginTicket duration db ticket now).2
        ticket = some (now + duration) ∧
      (handlePostRefreshLoginTicket duration db ticket now).2.map Prod.fst =
        db.map Prod.fst) ∧
    (selExistingAuthentication db ticket = some expiry → expiry ≤ now →
      (handlePostRefreshLoginTicket duration db ticket now).1 =
        { login_ticket_expiry := none, is_expired := some true } ∧
      (handlePostRefreshLoginTicket duration db ticket now).2 = db) ∧
    (selExistingAuthentication db ticket = none →
      (handlePostRefreshLoginTicket duration db ticket now).1 =
        { login_ticket_expiry := none, is_expired := some true } ∧
      (handlePostRefreshLoginTicket duration db ticket now).2 = db) := by
  refine ⟨fun hsel hfut => ?_, fun hsel hpast => ?_, fun hsel => ?_⟩
  · have hred : handlePostRefreshLoginTicket duration db ticket now =
        ({ login_ticket_expiry := some (now + duration), is_expired := none },
         updExistingAuthentication db (now + duration) ticket) := by
      simp only [handlePostRefreshLoginTicket, hsel, if_pos hfut]
    rw [hred]
    exact ⟨rfl, lookup_updExistingAuthentication db _ ticket expiry hsel,
      keys_updExistingAuthentication db _ ticket⟩
  · have hred : handlePostRefreshLoginTicket duration db ticket now =
        ({ login_ticket_expiry := none, is_expired := some true }, db) := by
      simp only [handlePostRefreshLoginTicket, hsel, if_neg (by omega : ¬now < expiry)]
    rw [hred]
    exact ⟨rfl, rfl⟩
  · have hred : handlePostRefreshLoginTicket duration db ticket now =
        ({ login_ticket_expiry := none, is_expired := some true }, db) := by
      simp only [handlePostRefreshLoginTicket, hsel]
    rw [hred]
    exact ⟨rfl, rfl⟩

/-- Witness for C4: on a table holding ticket `"t"` with expiry 200 at time
100 and duration 50, the response carries expiry 150, the stored expiry
becomes 150, the key set is unchanged; at time 300 the same table yields
the expired flag and no write. -/
theorem refreshLoginTicket_spec_witness :
    selExistingAuthentication [("t", 200)] "t" = some 200 ∧
    (100 : Nat) < 200 ∧
    (handlePostRefreshLoginTicket 50 [("t", 200)] "t" 100).1 =
      { login_ticket_expiry := some 150, is_expired := none } ∧
    selExistingAuthentication (handlePostRefreshLoginTicket 50 [("t", 200)] "t" 100).2
      "t" = some 150 ∧
    (handlePostRefreshLoginTicket 50 [("t", 200)] "t" 300).1 =
      { login_ticket_expiry := none, is_expired := some true } ∧
    (handlePostRefreshLoginTicket 50 [("t", 200)] "t" 300).2 = [("t", 200)] := by
  have h1 := (refreshLoginTicket_spec 50 [("t", 200)] "t" 100 200).1 (by decide)
    (by decide)
  have h2 := (refreshLoginTicket_spec 50 [("t", 200)] "t" 300 200).2.1 (by decide)
    (by decide)
  exact ⟨by decide, by decide, h1.1, h1.2.1, h2.1, h2.2⟩

/-- C3 counterexample: at the boundary where the stored expiry equals the
current time (`loginTicketExpiry < time(nullptr)` is false), the existing
non-empty ticket is returned unchanged, whereas the claim requires a newly
generated `"TC-..."` token whenever the expiry is at or before the current
time. -/
theorem issueOrReuse_boundary_counterexample :
    issueOrReuse "EXISTING" 100 100 (List.replicate 20 0) = "EXISTING" ∧
    "EXISTING" ≠ "TC-" ++ byteArrayToHexStr (List.replicate 20 0) false := by
  exact ⟨rfl, by decide⟩

/-- C3 (amended): `IssueOrReuse` generates a new ticket exactly when the
existing ticket is empty or the existing expiry is strictly before the
current time; a newly generated ticket is the fixed prefix `"TC-"`
followed by 40 hex characters encoding the 20 random bytes; in every
other case the existing ticket string is returned unchanged, while the
login flow still persists the (possibly reused) ticket with expiry
`now + ticketDuration`. -/
theorem issueOrReuse_spec (existing : String) (expiry now : Nat) (bytes : List Nat)
    (hlen : bytes.length = 20) :
    ((existing = "" ∨ expiry < now) →
      issueOrReuse existing expiry now bytes =
        "TC-" ++ byteArrayToHexStr bytes false ∧
      (byteArrayToHexStr bytes false).length = 40 ∧
      ∀ c ∈ (byteArrayToHexStr bytes false).toList, isHexDigitChar c = true) ∧
    (existing ≠ "" → now ≤ expiry →
      issueOrReuse existing expiry now bytes = existing) ∧
    ∀ (cfg : Config) (ipAddress sentPasswordHash : String) (row : AccountRow),
      sentPasswordHash = row.pass_hash →
      (handlePostLoginCallback cfg now ipAddress bytes sentPasswordHash
          (some row)).transactions =
        [[DbOp.updAuthentication
            (issueOrReuse row.loginTicket row.loginTicketExpiry now bytes)
            (now + cfg.ticketDuration) row.accountId]] := by
  refine ⟨fun hgen => ?_, fun hne hle => ?_, fun cfg ip sent row hmatch => ?_⟩
  · refine ⟨by rw [issueOrReuse, if_pos hgen], ?_, byteArrayToHexStr_hexChars bytes false⟩
    rw [byteArrayToHexStr_length, hlen]
  · rw [issueOrReuse, if_neg]
    rintro (h | h)
    · exact hne h
    · omega
  · simp only [handlePostLoginCallback]
    rw [if_neg (by simp [hmatch])]

/-- Witness for C3 (amended): an empty ticket yields a fresh 43-character
`"TC-..."` token; a live ticket `"TC-OLD"` at its expiry instant is reused
and persisted with expiry `100 + 3600`. -/
theorem issueOrReuse_spec_witness :
    (List.replicate 20 171).length = 20 ∧
    issueOrReuse "" 0 100 (List.replicate 20 171) =
      "TC-" ++ byteArrayToHexStr (List.replicate 20 171) false ∧
    (byteArrayToHexStr (List.replicate 20 171) false).length = 40 ∧
    issueOrReuse "TC-OLD" 100 100 (List.replicate 20 171) = "TC-OLD" ∧
    (handlePostLoginCallback ⟨2, .banIp, 600, 3600⟩ 100 "10.0.0.1"
        (List.replicate 20 171) "H" (some ⟨1, "H", 0, "TC-OLD", 100, false⟩)).transactions =
      [[DbOp.updAuthentication "TC-OLD" 3700 1]] := by
  have h1 := (issueOrReuse_spec "" 0 100 (List.replicate 20 171) (by decide)).1
    (Or.inl rfl)
  have h2 := (issueOrReuse_spec "TC-OLD" 100 100 (List.replicate 20 171) (by decide)).2.1
    (by decide) (by decide)
  have h3 := (issueOrReuse_spec "TC-OLD" 100 100 (List.replicate 20 171) (by decide)).2.2
    ⟨2, .banIp, 600, 3600⟩ "10.0.0.1" "H" ⟨1, "H", 0, "TC-OLD", 100, false⟩ rfl
  refine ⟨by decide, h1.1, h1.2.1, h2, ?_⟩
  rw [h3, h2]
  rfl

theorem commit_onFailedLogin_failedLogins (cfg : Config) (accountId : Nat)
    (ipAddress : String) (failedLogins : Nat) (s : DbState) :
    (commitTransaction s (onFailedLogin cfg accountId ipAddress failedLogins)).failedLogins =
      if cfg.maxWrongPassword ≤ failedLogins + 1 then 0 else s.failedLogins + 1 := by
  simp only [onFailedLogin]
  by_cases h : cfg.maxWrongPassword ≤ failedLogins + 1
  · rw [if_pos h, if_pos h]
    cases cfg.banMode <;> rfl
  · rw [if_neg h, if_neg h]
    rfl

theorem commit_onFailedLogin_bans (cfg : Config) (accountId : Nat)
    (ipAddress : String) (failedLogins : Nat) (s : DbState) :
    (commitTransaction s (onFailedLogin cfg accountId ipAddress failedLogins)).bans =
      if cfg.maxWrongPassword ≤ failedLogins + 1 then
        s.bans ++ [match cfg.banMode with
          | .banAccount => BanRecord.account accountId cfg.banTime
          | .banIp => BanRecord.ip ipAddress cfg.banTime]
      else s.bans := by
  simp only [onFailedLogin]
  by_cases h : cfg.maxWrongPassword ≤ failedLogins + 1
  · rw [if_pos h, if_pos h]
    cases cfg.banMode <;> rfl
  · rw [if_neg h, if_neg h]
    rfl

/-- C1: for a wrong password on an unbanned account with
`WrongPass.MaxCount = N ≠ 0`, the handler commits exactly one transaction,
`onFailedLogin`; when the post-increment counter reaches `N` that single
atomic transaction consists of the increment, exactly one ban insertion
(account- or address-scoped per the ban mode) and the counter reset, and
applying it leaves the counter at 0 with one new ban record; below the
threshold it is the increment alone; and the failed login following a
reset counts from 1, not `N + 1`. -/
theorem wrongPassword_banTransaction_atomic (cfg : Config) (now : Nat)
    (ipAddress sentPasswordHash : String) (randomBytes : List Nat)
    (row : AccountRow) (s : DbState)
    (hmax : cfg.maxWrongPassword ≠ 0)
    (hbanned : row.isBanned = false)
    (hmismatch : sentPasswordHash ≠ row.pass_hash) :
    (handlePostLoginCallback cfg now ipAddress randomBytes sentPasswordHash
        (some row)).transactions =
      [onFailedLogin cfg row.accountId ipAddress row.failedLogins] ∧
    (cfg.maxWrongPassword ≤ row.failedLogins + 1 →
      onFailedLogin cfg row.accountId ipAddress row.failedLogins =
        [DbOp.updFailedLogins row.accountId,
         (match cfg.banMode with
          | .banAccount => DbOp.insBnetAccountAutoBanned row.accountId cfg.banTime
          | .banIp => DbOp.insIpAutoBanned ipAddress cfg.banTime),
         DbOp.updResetFailedLogins row.accountId] ∧
      banInsertCount (onFailedLogin cfg row.accountId ipAddress row.failedLogins) = 1 ∧
      (commitTransaction s
          (onFailedLogin cfg row.accountId ipAddress row.failedLogins)).failedLogins = 0 ∧
      (commitTransaction s
          (onFailedLogin cfg row.accountId ipAddress row.failedLogins)).bans =
        s.bans ++ [match cfg.banMode with
          | .banAccount => BanRecord.account row.accountId cfg.banTime
          | .banIp => BanRecord.ip ipAddress cfg.banTime]) ∧
    (row.failedLogins + 1 < cfg.maxWrongPassword →
      onFailedLogin cfg row.accountId ipAddress row.failedLogins =
        [DbOp.updFailedLogins row.accountId] ∧
      (commitTransaction s
          (onFailedLogin cfg row.accountId ipAddress row.failedLogins)).failedLogins =
        s.failedLogins + 1 ∧
      (commitTransaction s
          (onFailedLogin cfg row.accountId ipAddress row.failedLogins)).bans = s.bans) ∧
    (cfg.maxWrongPassword ≤ row.failedLogins + 1 →
      (commitTransaction
          (commitTransaction s (onFailedLogin cfg row.accountId ipAddress row.failedLogins))
          (onFailedLogin cfg row.accountId ipAddress
            (commitTransaction s
              (onFailedLogin cfg row.accountId ipAddress row.failedLogins)).failedLogins)).failedLogins =
        if cfg.maxWrongPassword = 1 then 0 else 1) := by
  refine ⟨?_, fun hreach => ?_, fun hless => ?_, fun hreach => ?_⟩
  · simp only [handlePostLoginCallback]
    rw [if_pos hmismatch, if_pos ⟨by simp [hbanned], hmax⟩]
  · have hone : onFailedLogin cfg row.accountId ipAddress row.failedLogins =
        [DbOp.updFailedLogins row.accountId,
         (match cfg.banMode with
          | .banAccount => DbOp.insBnetAccountAutoBanned row.accountId cfg.banTime
          | .banIp => DbOp.insIpAutoBanned ipAddress cfg.banTime),
         DbOp.updResetFailedLogins row.accountId] := by
      simp only [onFailedLogin]
      rw [if_pos hreach]
      rfl
    refine ⟨hone, ?_, ?_, ?_⟩
    · rw [hone]
      cases cfg.banMode <;> rfl
    · rw [commit_onFailedLogin_failedLogins, if_pos hreach]
    · rw [commit_onFailedLogin_bans, if_pos hreach]
  · have hone : onFailedLogin cfg row.accountId ipAddress row.failedLogins =
        [DbOp.updFailedLogins row.accountId] := by
      simp only [onFailedLogin]
      rw [if_neg (by omega)]
    refine ⟨hone, ?_, ?_⟩
    · rw [commit_onFailedLogin_failedLogins, if_neg (by omega)]
    · rw [commit_onFailedLogin_bans, if_neg (by omega)]
  · have h0 : (commitTransaction s
        (onFailedLogin cfg row.accountId ipAddress row.failedLogins)).failedLogins = 0 := by
      rw [commit_onFailedLogin_failedLogins, if_pos hreach]
    rw [h0, commit_onFailedLogin_failedLogins]
    by_cases h1 : cfg.maxWrongPassword = 1
    · rw [if_pos (by omega), if_pos h1]
    · rw [if_neg (by omega), if_neg h1]
      rw [h0]

/-- Witness for C1: `N = 2`, account-scoped bans, stored counter 1. The
second failed login commits the single transaction
increment-ban-reset; applied to counter 1 and empty ban tables it yields
counter 0 and one account ban, and the following failed login counts
from 1. -/
theorem wrongPassword_banTransaction_atomic_witness :
    (⟨2, .banAccount, 600, 3600⟩ : Config).maxWrongPassword ≠ 0 ∧
    ("WRONG" : String) ≠ "CAFE" ∧
    (2 : Nat) ≤ 1 + 1 ∧
    (handlePostLoginCallback ⟨2, .banAccount, 600, 3600⟩ 1000 "10.0.0.1" [] "WRONG"
        (some ⟨1, "CAFE", 1, "", 0, false⟩)).transactions =
      [[DbOp.updFailedLogins 1, DbOp.insBnetAccountAutoBanned 1 600,
        DbOp.updResetFailedLogins 1]] ∧
    banInsertCount [DbOp.updFailedLogins 1, DbOp.insBnetAccountAutoBanned 1 600,
        DbOp.updResetFailedLogins 1] = 1 ∧
    (commitTransaction ⟨1, [], "", 0⟩
        (onFailedLogin ⟨2, .banAccount, 600, 3600⟩ 1 "10.0.0.1" 1)).failedLogins = 0 ∧
    (commitTransaction ⟨1, [], "", 0⟩
        (onFailedLogin ⟨2, .banAccount, 600, 3600⟩ 1 "10.0.0.1" 1)).bans =
      [BanRecord.account 1 600] ∧
    (commitTransaction
        (commitTransaction ⟨1, [], "", 0⟩
          (onFailedLogin ⟨2, .banAccount, 600, 3600⟩ 1 "10.0.0.1" 1))
        (onFailedLogin ⟨2, .banAccount, 600, 3600⟩ 1 "10.0.0.1"
          (commitTransaction ⟨1, [], "", 0⟩
            (onFailedLogin ⟨2, .banAccount, 600, 3600⟩ 1 "10.0.0.1" 1)).failedLogins)).failedLogins =
      1 := by
  have h := wrongPassword_banTransaction_atomic ⟨2, .banAccount, 600, 3600⟩ 1000
    "10.0.0.1" "WRONG" [] ⟨1, "CAFE", 1, "", 0, false⟩ ⟨1, [], "", 0⟩
    (by decide) rfl (by decide)
  have h2 := h.2.1 (by decide)
  refine ⟨by decide, by decide, by decide, ?_, h2.2.1, h2.2.2.1, ?_, ?_⟩
  · rw [h.1, h2.1]
  · rw [h2.2.2.2]
    rfl
  · rw [h.2.2.2 (by decide)]
    rfl

theorem findIdx_colon (p q : List Nat) (hp : ∀ b ∈ p, b ≠ 58) :
    (p ++ 58 :: q).findIdx? (· == 58) = some p.length := by
  induction p with
  | nil => simp
  | cons a pw ih =>
    have ha : a ≠ 58 := hp a (by simp)
    have ihh := ih (fun b hb => hp b (by simp [hb]))
    simp [List.findIdx?_cons, ha, ihh]

theorem findIdx_noColon (d : List Nat) (hnc : ∀ b ∈ d, b ≠ 58) :
    d.findIdx? (· == 58) = none := by
  rw [List.findIdx?_eq_none_iff]
  intro b hb
  simpa using hnc b hb

/-- C8: authorization extraction strips an optional case-sensitive
`"Basic "` scheme prefix, base64-decodes the remainder, and returns
everything before the first `':'` (content after the separator is ignored);
an absent header or a non-base64 payload yields the empty ticket. In
particular the base64 encoding of `"abc123:ignored"`, with or without the
scheme prefix, extracts exactly `"abc123"`. -/
theorem extractAuthorization_spec :
    extractAuthorization none = "" ∧
    (∀ s : String,
      base64Decode (if "Basic ".toList.isPrefixOf s.toList then
          String.mk (s.toList.drop "Basic ".length) else s) = none →
      extractAuthorization (some s) = "") ∧
    (∀ (s : String) (p q : List Nat),
      base64Decode (if "Basic ".toList.isPrefixOf s.toList then
          String.mk (s.toList.drop "Basic ".length) else s) = some (p ++ 58 :: q) →
      (∀ b ∈ p, b ≠ 58) →
      extractAuthorization (some s) = bytesToString p) ∧
    extractAuthorization (some "YWJjMTIzOmlnbm9yZWQ=") = "abc123" ∧
    extractAuthorization (some "Basic YWJjMTIzOmlnbm9yZWQ=") = "abc123" := by
  refine ⟨rfl, fun s hdec => ?_, fun s p q hdec hp => ?_, by decide, by decide⟩
  · simp only [extractAuthorization, hdec]
  · simp only [extractAuthorization, hdec, findIdx_colon p q hp, List.take_left]

/-- Witness for C8's quantified conjuncts: a non-base64 header extracts the
empty ticket, and the base64 encoding of `"abc123:ignored"` splits at the
colon byte into ticket `"abc123"` with `"ignored"` discarded. -/
theorem extractAuthorization_spec_witness :
    base64Decode "!!!notbase64" = none ∧
    extractAuthorization (some "!!!notbase64") = "" ∧
    base64Decode "YWJjMTIzOmlnbm9yZWQ=" =
      some ([97, 98, 99, 49, 50, 51] ++ 58 ::
        [105, 103, 110, 111, 114, 101, 100]) ∧
    extractAuthorization (some "YWJjMTIzOmlnbm9yZWQ=") =
      bytesToString [97, 98, 99, 49, 50, 51] := by
  refine ⟨by decide, ?_, by decide, ?_⟩
  · exact extractAuthorization_spec.2.1 "!!!notbase64" (by decide)
  · exact extractAuthorization_spec.2.2.1 "YWJjMTIzOmlnbm9yZWQ="
      [97, 98, 99, 49, 50, 51] [105, 103, 110, 111, 114, 101, 100]
      (by decide) (by decide)

/-- C9: when the decoded authorization payload contains no `':'` at all,
the whole decoded string is returned as the ticket (a colon-free payload is
a valid, possibly non-empty ticket, not a decoding failure). -/
theorem extractAuthorization_noColon (s : String) (d : List Nat)
    (hdec : base64Decode (if "Basic ".toList.isPrefixOf s.toList then
        String.mk (s.toList.drop "Basic ".length) else s) = some d)
    (hnc : ∀ b ∈ d, b ≠ 58) :
    extractAuthorization (some s) = bytesToString d := by
  simp only [extractAuthorization, hdec, findIdx_noColon d hnc]

/-- Witness for C9: `"YWJjMTIz"` (base64 of the colon-free `"abc123"`)
extracts the non-empty ticket `"abc123"`. -/
theorem extractAuthorization_noColon_witness :
    base64Decode "YWJjMTIz" = some [97, 98, 99, 49, 50, 51] ∧
    extractAuthorization (some "YWJjMTIz") =
      bytesToString [97, 98, 99, 49, 50, 51] ∧
    bytesToString [97, 98, 99, 49, 50, 51] = "abc123" := by
  refine ⟨by decide, ?_, by decide⟩
  exact extractAuthorization_noColon "YWJjMTIz" [97, 98, 99, 49, 50, 51]
    (by decide) (by decide)

end LoginREST
